import Mathlib

/-!
Verification of the AI App Prompt Enhancer single-page application
(src/app.js).  The component is embedded shallowly: React state becomes an
explicit `AppState` record, every event handler becomes a state-passing
function, and the external world (the `fetch` transport and the runtime
`JSON.parse` routine) is a `Transport` parameter that the theorems
quantify over.  Handlers additionally report how many network calls they
issued, so that short-circuit properties are directly statable.
-/

namespace AppPromptEnhancer

/-- Dynamic JavaScript values as they occur in this program: results of
`JSON.parse` and the literal objects built by the component.  `Option JsVal`
stands for a possibly-`undefined` value (`none` = `undefined`). -/
inductive JsVal where
  | null
  | bool (b : Bool)
  | num (n : Int)
  | str (s : String)
  | arr (elems : List JsVal)
  | obj (fields : List (String × JsVal))

/-- JavaScript truthiness of a defined value. -/
def truthy : JsVal → Bool
  | .null => false
  | .bool b => b
  | .num n => n != 0
  | .str s => s != ""
  | .arr _ => true
  | .obj _ => true

/-- Truthiness of a possibly-`undefined` value (`undefined` is falsy). -/
def truthyOpt : Option JsVal → Bool
  | none => false
  | some v => truthy v

/-- Property read `v.k` on a defined, non-null receiver: objects look up the
field, arrays and strings expose `length`; primitives yield `undefined`. -/
def jsGet (v : JsVal) (k : String) : Option JsVal :=
  match v with
  | .obj fs => (fs.find? (fun p => p.1 = k)).map (fun p => p.2)
  | .arr xs => if k = "length" then some (.num xs.length) else none
  | .str s => if k = "length" then some (.num s.length) else none
  | _ => none

/-- Property read on a possibly-`undefined` receiver, used only after a
truthiness guard (mirrors guarded accesses such as `result.names`). -/
def jsGetOpt (v : Option JsVal) (k : String) : Option JsVal :=
  match v with
  | none => none
  | some w => jsGet w k

/-- Index read `v[i]`: array element, string character, or numeric-keyed
object field; `undefined` otherwise. -/
def jsIndex (v : JsVal) (i : Nat) : Option JsVal :=
  match v with
  | .arr xs => xs.get? i
  | .str s => (s.toList.get? i).map (fun c => .str (String.singleton c))
  | .obj fs => (fs.find? (fun p => p.1 = toString i)).map (fun p => p.2)
  | _ => none

/-- Property read `recv.k` that, like JavaScript, throws a TypeError when the
receiver is `undefined` or `null`; the thrown message becomes `err.message`. -/
def getProp (recv : Option JsVal) (k : String) : Except String (Option JsVal) :=
  match recv with
  | none => .error ("Cannot read properties of undefined (reading " ++ k ++ ")")
  | some .null => .error ("Cannot read properties of null (reading " ++ k ++ ")")
  | some v => .ok (jsGet v k)

/-- The comparison `x.length > 0` as the source uses it: true exactly for a
defined numeric length greater than zero. -/
def jsGtZero : Option JsVal → Bool
  | some (.num n) => decide (0 < n)
  | _ => false

mutual

/-- JavaScript string coercion `String(v)` for defined values (objects render
as `[object Object]`, arrays join their elements with commas). -/
def jsToString : JsVal → String
  | .null => "null"
  | .bool b => if b then "true" else "false"
  | .num n => toString n
  | .str s => s
  | .arr xs => String.intercalate "," (jsToStringList xs)
  | .obj _ => "[object Object]"

/-- Element-wise coercion of a list of values. -/
def jsToStringList : List JsVal → List String
  | [] => []
  | x :: xs => jsToString x :: jsToStringList xs

end

/-- JavaScript `String.prototype.trim`: drop whitespace from both ends.
(Implemented over the character list so that it is kernel-executable;
`String.trim` of the core library computes the same result.) -/
def jsTrim (s : String) : String :=
  String.mk (((s.toList.dropWhile Char.isWhitespace).reverse.dropWhile
    Char.isWhitespace).reverse)

/-- String coercion of a possibly-`undefined` value. -/
def jsToStringU : Option JsVal → String
  | none => "undefined"
  | some v => jsToString v

/-- `Array.prototype.join` with a separator, for the array values the code
expects at its one `join` call site; non-array values render directly. -/
def jsJoin (sep : String) : JsVal → String
  | .arr xs => String.intercalate sep (jsToStringList xs)
  | v => jsToString v

/-! ## The external world: HTTP transport and the runtime JSON parser -/

/-- The relevant observables of a settled `fetch` response. -/
structure HttpResponse where
  ok : Bool
  status : Nat
  statusText : String
  body : String

/-- Outcome of one `fetch` call: the promise rejects with an error message,
or resolves with a response. -/
inductive FetchResult where
  | reject (message : String)
  | resolve (resp : HttpResponse)

/-- One behaviour of the environment: what `fetch` does for a given URL and
payload, and what `JSON.parse` yields on a given string (`.error` is the
thrown SyntaxError message).  Theorems quantify over all behaviours. -/
structure Transport where
  fetch : String → JsVal → FetchResult
  parse : String → Except String JsVal

/-! ## Request building (callGeminiApi, lines 62-83 of src/app.js) -/

/-- The API key is left empty for the ambient environment to fill in. -/
def apiKey : String := ""

/-- The endpoint URL, parameterized by the model name. -/
def apiUrl (modelName : String) : String :=
  "https://generativelanguage.googleapis.com/v1beta/models/" ++ modelName
    ++ ":generateContent?key=" ++ apiKey

/-- The request payload: a single user turn, plus a generation config when a
response schema is supplied. -/
def mkPayload (promptText : String) (responseSchema : Option JsVal) : JsVal :=
  let chatHistory : JsVal :=
    .arr [.obj [("role", .str "user"), ("parts", .arr [.obj [("text", .str promptText)]])]]
  match responseSchema with
  | none => .obj [("contents", chatHistory)]
  | some schema =>
      .obj [("contents", chatHistory),
            ("generationConfig",
              .obj [("responseMimeType", .str "application/json"),
                    ("responseSchema", schema)])]

/-! ## Response normalization -/

/-- `errorData.error?.message || response.statusText`: the optional chain
yields `undefined` past a null or undefined `error` field, and any falsy
message falls back to the status text. -/
def optChainMessage (errField : Option JsVal) (statusText : String) : String :=
  match errField with
  | none => statusText
  | some .null => statusText
  | some v =>
      match jsGet v "message" with
      | none => statusText
      | some m => if truthy m then jsToString m else statusText

/-- Outcome of the candidate/content guard of lines 106-112: either the
condition is false, or it extracts `candidates[0].content.parts[0].text`
(which may itself be `undefined`). -/
inductive GuardOut where
  | noContent
  | part (text : Option JsVal)

/-- The guard `result.candidates && result.candidates.length > 0 && ...`
followed by the extraction of the first part text, with JavaScript
short-circuiting; a TypeError on an undefined or null step is an error. -/
def extractGuard (result : JsVal) : Except String GuardOut :=
  match getProp (some result) "candidates" with
  | .error e => .error e
  | .ok candOpt =>
    match candOpt with
    | none => .ok .noContent
    | some cand =>
      if truthy cand = false then .ok .noContent
      else if jsGtZero (jsGet cand "length") = false then .ok .noContent
      else
        match getProp (jsIndex cand 0) "content" with
        | .error e => .error e
        | .ok contOpt =>
          match contOpt with
          | none => .ok .noContent
          | some cont =>
            if truthy cont = false then .ok .noContent
            else
              match jsGet cont "parts" with
              | none => .ok .noContent
              | some parts =>
                if truthy parts = false then .ok .noContent
                else if jsGtZero (jsGet parts "length") = false then .ok .noContent
                else
                  match getProp (jsIndex parts 0) "text" with
                  | .error e => .error e
                  | .ok t => .ok (.part t)

/-- The body of the `try` block of `callGeminiApi` (lines 78-125): every
`throw` becomes `.error` carrying the `err.message` the catch will see. -/
def geminiTry (tr : Transport) (url : String) (payload : JsVal)
    (responseSchema : Option JsVal) : Except String (Option JsVal) :=
  match tr.fetch url payload with
  | .reject m => .error m
  | .resolve resp =>
    if resp.ok = false then
      match tr.parse resp.body with
      | .error pm => .error pm
      | .ok errorData =>
        match getProp (some errorData) "error" with
        | .error te => .error te
        | .ok errField =>
            .error ("API error: " ++ toString resp.status ++ " - "
              ++ optChainMessage errField resp.statusText)
    else if resp.body = "" then
      .error "Empty response from AI. Please try again."
    else
      match tr.parse resp.body with
      | .error pm =>
          .error ("AI returned invalid response format: " ++ resp.body.take 100
            ++ "... (Error: " ++ pm ++ ")")
      | .ok result =>
        match extractGuard result with
        | .error te => .error te
        | .ok .noContent =>
            .error "Unexpected API response structure or no content generated."
        | .ok (.part t) =>
          match responseSchema with
          | some _ =>
            match tr.parse (jsToStringU t) with
            | .ok v => .ok (some v)
            | .error _ =>
                .error "AI returned invalid JSON within its content. Please try again."
          | none => .ok t

/-! ## View state -/

/-- The component state: one field per `useState` slot of the source.
`Option JsVal` slots use `none` for the null / not-yet-generated value. -/
structure AppState where
  simpleIdea : String
  enhancedPrompt : String
  customPrompt : String
  appPreview : Option JsVal
  isLoadingEnhance : Bool
  isLoadingPreview : Bool
  error : String
  isPromptEnhanced : Bool
  appNamesSlogans : Option JsVal
  monetizationStrategies : Option JsVal
  techStackSuggestions : Option JsVal
  isLoadingNames : Bool
  isLoadingMonetization : Bool
  isLoadingTechStack : Bool

/-- All slots at their `useState` initial values. -/
def initialState : AppState :=
  { simpleIdea := "", enhancedPrompt := "", customPrompt := "",
    appPreview := none, isLoadingEnhance := false, isLoadingPreview := false,
    error := "", isPromptEnhanced := false, appNamesSlogans := none,
    monetizationStrategies := none, techStackSuggestions := none,
    isLoadingNames := false, isLoadingMonetization := false,
    isLoadingTechStack := false }

/-- The message wrapper of the catch block (line 128). -/
def failWrap (m : String) : String :=
  "Failed to connect to AI: " ++ m ++ ". Please try again."

/-- The placeholder returned from the catch block (line 129): empty object
with a schema, empty string without. -/
def dfltReturn : Option JsVal → Option JsVal
  | some _ => some (.obj [])
  | none => some (.str "")

/-- `callGeminiApi` (lines 62-131): clears the error, performs the guarded
request/response cycle, and on any thrown error sets the wrapped message and
returns the placeholder value.  The scroll side effects and console logging
of the source have no state content and are not modelled. -/
def callGeminiApi (tr : Transport) (promptText modelName : String)
    (responseSchema : Option JsVal) (s : AppState) : AppState × Option JsVal :=
  let s0 : AppState := { s with error := "" }
  match geminiTry tr (apiUrl modelName) (mkPayload promptText responseSchema)
      responseSchema with
  | .ok v => (s0, v)
  | .error msg =>
      ({ s0 with error := failWrap msg }, dfltReturn responseSchema)

/-! ## Prompt templates and response schemas (the Request Builder) -/

/-- The enhancement prompt template of lines 153-155. -/
def enhancementPrompt (simpleIdea : String) : String :=
  "You are an expert AI app developer. A user has a simple idea for an app. Your task is to expand this simple idea into a comprehensive, detailed, and inclusive prompt that can be used to generate a full app specification. Consider aspects like target audience, core features, key functionalities, potential user roles, non-functional requirements (performance, security, scalability), UI/UX considerations, and monetization strategies if applicable.\n        The output should be a well-structured prompt, ready to be fed into another AI model for app generation.\n        User\x27s simple idea: \x27"
    ++ simpleIdea ++ "\x27"

/-- The app preview prompt template of lines 190-198. -/
def appPreviewGenerationPrompt (promptToUse : String) : String :=
  "Based on the following detailed app prompt, describe a conceptual overview and key features of the application. Provide the output as a JSON object with the following keys:\n- \"appName\": (string) A suggested short, descriptive name for the app.\n- \"tagline\": (string) A short, catchy phrase summarizing the app.\n- \"description\": (string) A detailed overview of what the app does, who it\x27s for, and its primary functionalities.\n- \"keyFeatures\": (array of strings) A list of the most important features.\n- \"targetAudience\": (string) The primary users the app is designed for.\n\nEnsure the output is valid JSON.\nDetailed App Prompt: \x27"
    ++ promptToUse ++ "\x27"

/-- The names/slogans prompt template of lines 246-247. -/
def namesSlogansPrompt (description : String) : String :=
  "Generate 5 creative and catchy app names and 5 taglines for an app based on the following description. Provide the output as a JSON object with two keys: \"names\" (array of strings) and \"taglines\" (array of strings).\n        App Description: "
    ++ description

/-- The monetization prompt template of lines 283-284. -/
def monetizationPrompt (description : String) : String :=
  "Based on the following app description, suggest 3-5 potential monetization strategies. For each strategy, briefly explain how it would work for this app. Provide the output as a JSON object with a single key \"strategies\" (array of objects, each with \"name\" and \"description\" keys).\n        App Description: "
    ++ description

/-- The tech stack prompt template of lines 329-331. -/
def techStackPrompt (description keyFeaturesText : String) : String :=
  "Based on the following app description and its key features, suggest a high-level technology stack (e.g., Frontend, Backend, Database, Mobile). Focus on common, modern technologies suitable for the described app. Provide the output as a JSON object with keys like \"frontend\", \"backend\", \"database\", \"mobile\" (each a string or array of strings, or null if not applicable). If a category is not directly relevant, you can omit it or set its value to null/empty array.\n        App Description: "
    ++ description ++ "\n        Key Features: " ++ keyFeaturesText

/-- The ternary `appPreview.keyFeatures ? appPreview.keyFeatures.join(', ') :
'Not provided'` of line 331. -/
def keyFeaturesText (appPreview : Option JsVal) : String :=
  match jsGetOpt appPreview "keyFeatures" with
  | some kf => if truthy kf then jsJoin ", " kf else "Not provided"
  | none => "Not provided"

/-- The response schema of lines 201-214. -/
def appPreviewSchema : JsVal :=
  .obj [("type", .str "OBJECT"),
        ("properties",
          .obj [("appName", .obj [("type", .str "STRING")]),
                ("tagline", .obj [("type", .str "STRING")]),
                ("description", .obj [("type", .str "STRING")]),
                ("keyFeatures",
                  .obj [("type", .str "ARRAY"),
                        ("items", .obj [("type", .str "STRING")])]),
                ("targetAudience", .obj [("type", .str "STRING")])]),
        ("required",
          .arr [.str "appName", .str "tagline", .str "description",
                .str "keyFeatures", .str "targetAudience"])]

/-- The response schema of lines 249-256. -/
def namesSlogansSchema : JsVal :=
  .obj [("type", .str "OBJECT"),
        ("properties",
          .obj [("names",
                  .obj [("type", .str "ARRAY"),
                        ("items", .obj [("type", .str "STRING")])]),
                ("taglines",
                  .obj [("type", .str "ARRAY"),
                        ("items", .obj [("type", .str "STRING")])])]),
        ("required", .arr [.str "names", .str "taglines"])]

/-- The response schema of lines 286-302. -/
def monetizationSchema : JsVal :=
  .obj [("type", .str "OBJECT"),
        ("properties",
          .obj [("strategies",
                  .obj [("type", .str "ARRAY"),
                        ("items",
                          .obj [("type", .str "OBJECT"),
                                ("properties",
                                  .obj [("name", .obj [("type", .str "STRING")]),
                                        ("description", .obj [("type", .str "STRING")])]),
                                ("required", .arr [.str "name", .str "description"])])])]),
        ("required", .arr [.str "strategies"])]

/-- The response schema of lines 333-342 (no required fields). -/
def techStackSchema : JsVal :=
  .obj [("type", .str "OBJECT"),
        ("properties",
          .obj [("frontend", .obj [("type", .str "STRING")]),
                ("backend", .obj [("type", .str "STRING")]),
                ("database", .obj [("type", .str "STRING")]),
                ("mobile", .obj [("type", .str "STRING")])])]

/-! ## Event handlers

Each handler is a function from the pre-trigger state to the post-completion
state, paired with the number of network calls it issued.  Reads of state
variables inside a handler use the pre-trigger closure values, exactly as in
the source, where no handler reads a slot it has written in the same run. -/

/-- The slot-clearing of lines 145-151, entered once the enhance
precondition passes. -/
def enhanceLoading (s : AppState) : AppState :=
  { s with isLoadingEnhance := true, appPreview := none,
           enhancedPrompt := "", customPrompt := "",
           appNamesSlogans := none, monetizationStrategies := none,
           techStackSuggestions := none }

/-- The gateway call issued by `handleEnhancePrompt` (line 158): default
model, no schema. -/
def enhanceCall (tr : Transport) (s : AppState) : AppState × Option JsVal :=
  callGeminiApi tr (enhancementPrompt s.simpleIdea) "gemini-2.0-flash" none
    (enhanceLoading s)

/-- `handleEnhancePrompt` (lines 139-169).  A non-string truthy generated
value would be stored by the source as-is; the model stores its string
coercion, which coincides with the source on every string result. -/
def handleEnhancePrompt (tr : Transport) (s : AppState) : AppState × Nat :=
  if jsTrim s.simpleIdea = "" then
    ({ s with error := "Please enter a simple idea to enhance." }, 0)
  else
    let call := enhanceCall tr s
    let s2 := call.1
    let s3 :=
      if truthyOpt call.2 then
        { s2 with enhancedPrompt := jsToStringU call.2,
                  customPrompt := jsToStringU call.2,
                  isPromptEnhanced := true }
      else s2
    ({ s3 with isLoadingEnhance := false }, 1)

/-- The slot-clearing of lines 183-187, entered once the preview
precondition passes. -/
def previewLoading (s : AppState) : AppState :=
  { s with isLoadingPreview := true, appPreview := none,
           appNamesSlogans := none, monetizationStrategies := none,
           techStackSuggestions := none }

/-- The gateway call issued by `handleGenerateAppPreview` (line 217). -/
def previewCall (tr : Transport) (s : AppState) : AppState × Option JsVal :=
  callGeminiApi tr (appPreviewGenerationPrompt (jsTrim s.customPrompt))
    "gemini-2.0-flash" (some appPreviewSchema) (previewLoading s)

/-- `handleGenerateAppPreview` (lines 175-232).  The catch branch of the
source is unreachable because `callGeminiApi` never throws. -/
def handleGenerateAppPreview (tr : Transport) (s : AppState) : AppState × Nat :=
  if jsTrim s.customPrompt = "" then
    ({ s with error := "Please enhance a prompt first or provide a custom prompt." }, 0)
  else
    let call := previewCall tr s
    let s2 := call.1
    let s3 :=
      if truthyOpt call.2 && truthyOpt (jsGetOpt call.2 "description") then
        { s2 with appPreview := call.2 }
      else
        { s2 with
            error := "Failed to generate a structured app preview. The AI might not have returned complete data or valid JSON.",
            appPreview := none }
    ({ s3 with isLoadingPreview := false }, 1)

/-- The precondition of the three auxiliary generations (lines 238, 275,
321): `appPreview` truthy with a truthy `description`. -/
def auxReady (s : AppState) : Bool :=
  truthyOpt s.appPreview && truthyOpt (jsGetOpt s.appPreview "description")

/-- The slot-clearing of lines 243-244. -/
def namesLoading (s : AppState) : AppState :=
  { s with isLoadingNames := true, appNamesSlogans := none }

/-- The gateway call issued by `handleGenerateNamesSlogans` (line 259). -/
def namesCall (tr : Transport) (s : AppState) : AppState × Option JsVal :=
  callGeminiApi tr
    (namesSlogansPrompt (jsToStringU (jsGetOpt s.appPreview "description")))
    "gemini-2.0-flash" (some namesSlogansSchema) (namesLoading s)

/-- `handleGenerateNamesSlogans` (lines 237-269). -/
def handleGenerateNamesSlogans (tr : Transport) (s : AppState) : AppState × Nat :=
  if auxReady s = false then
    ({ s with error := "Please generate an app preview first." }, 0)
  else
    let call := namesCall tr s
    let s2 := call.1
    let s3 :=
      if truthyOpt call.2 && truthyOpt (jsGetOpt call.2 "names")
          && truthyOpt (jsGetOpt call.2 "taglines") then
        { s2 with appNamesSlogans := call.2 }
      else
        { s2 with
            error := "Failed to generate names/slogans. AI response was incomplete or malformed.",
            appNamesSlogans := none }
    ({ s3 with isLoadingNames := false }, 1)

/-- The slot-clearing of lines 280-281. -/
def monetizationLoading (s : AppState) : AppState :=
  { s with isLoadingMonetization := true, monetizationStrategies := none }

/-- The gateway call issued by `handleGenerateMonetizationStrategies`
(line 305). -/
def monetizationCall (tr : Transport) (s : AppState) : AppState × Option JsVal :=
  callGeminiApi tr
    (monetizationPrompt (jsToStringU (jsGetOpt s.appPreview "description")))
    "gemini-2.0-flash" (some monetizationSchema) (monetizationLoading s)

/-- `handleGenerateMonetizationStrategies` (lines 274-315); on success the
slot stores `result.strategies`. -/
def handleGenerateMonetizationStrategies (tr : Transport) (s : AppState) :
    AppState × Nat :=
  if auxReady s = false then
    ({ s with error := "Please generate an app preview first." }, 0)
  else
    let call := monetizationCall tr s
    let s2 := call.1
    let s3 :=
      if truthyOpt call.2 && truthyOpt (jsGetOpt call.2 "strategies") then
        { s2 with monetizationStrategies := jsGetOpt call.2 "strategies" }
      else
        { s2 with
            error := "Failed to generate monetization strategies. AI response was incomplete or malformed.",
            monetizationStrategies := none }
    ({ s3 with isLoadingMonetization := false }, 1)

/-- The slot-clearing of lines 326-327. -/
def techStackLoading (s : AppState) : AppState :=
  { s with isLoadingTechStack := true, techStackSuggestions := none }

/-- The gateway call issued by `handleGenerateTechStack` (line 345). -/
def techStackCall (tr : Transport) (s : AppState) : AppState × Option JsVal :=
  callGeminiApi tr
    (techStackPrompt (jsToStringU (jsGetOpt s.appPreview "description"))
      (keyFeaturesText s.appPreview))
    "gemini-2.0-flash" (some techStackSchema) (techStackLoading s)

/-- `handleGenerateTechStack` (lines 320-355): the success branch fires for
every truthy result, including the empty object. -/
def handleGenerateTechStack (tr : Transport) (s : AppState) : AppState × Nat :=
  if auxReady s = false then
    ({ s with error := "Please generate an app preview first." }, 0)
  else
    let call := techStackCall tr s
    let s2 := call.1
    let s3 :=
      if truthyOpt call.2 then
        { s2 with techStackSuggestions := call.2 }
      else
        { s2 with
            error := "Failed to generate tech stack suggestions. AI response was incomplete or malformed.",
            techStackSuggestions := none }
    ({ s3 with isLoadingTechStack := false }, 1)

/-- The `onChange` handler of the idea textarea (lines 408-418). -/
def handleIdeaChange (newValue : String) (s : AppState) : AppState :=
  { s with simpleIdea := newValue, error := "", isPromptEnhanced := false,
           appPreview := none, enhancedPrompt := "", customPrompt := "",
           appNamesSlogans := none, monetizationStrategies := none,
           techStackSuggestions := none }

/-- The state with the error slot cleared, for stating that no handler
outcome depends on a previously displayed error. -/
def eraseError (s : AppState) : AppState := { s with error := "" }

/-! ## Helper lemmas -/

/-- The gateway call touches no state slot other than the error message. -/
lemma callGeminiApi_state (tr : Transport) (p m : String) (sch : Option JsVal)
    (x : AppState) :
    (callGeminiApi tr p m sch x).1
      = { x with error := (callGeminiApi tr p m sch x).1.error } := by
  unfold callGeminiApi
  cases geminiTry tr (apiUrl m) (mkPayload p sch) sch <;> rfl

/-- Specialization of `callGeminiApi_state` to the enhance call site. -/
lemma enhanceCall_fst (tr : Transport) (s : AppState) :
    (enhanceCall tr s).1
      = { enhanceLoading s with error := (enhanceCall tr s).1.error } := by
  unfold enhanceCall
  exact callGeminiApi_state ..

/-- Specialization of `callGeminiApi_state` to the preview call site. -/
lemma previewCall_fst (tr : Transport) (s : AppState) :
    (previewCall tr s).1
      = { previewLoading s with error := (previewCall tr s).1.error } := by
  unfold previewCall
  exact callGeminiApi_state ..

/-- Specialization of `callGeminiApi_state` to the names call site. -/
lemma namesCall_fst (tr : Transport) (s : AppState) :
    (namesCall tr s).1
      = { namesLoading s with error := (namesCall tr s).1.error } := by
  unfold namesCall
  exact callGeminiApi_state ..

/-- Specialization of `callGeminiApi_state` to the monetization call site. -/
lemma monetizationCall_fst (tr : Transport) (s : AppState) :
    (monetizationCall tr s).1
      = { monetizationLoading s with error := (monetizationCall tr s).1.error } := by
  unfold monetizationCall
  exact callGeminiApi_state ..

/-- Specialization of `callGeminiApi_state` to the tech stack call site. -/
lemma techStackCall_fst (tr : Transport) (s : AppState) :
    (techStackCall tr s).1
      = { techStackLoading s with error := (techStackCall tr s).1.error } := by
  unfold techStackCall
  exact callGeminiApi_state ..

/-- The enhance gateway call leaves the enhanced flag untouched. -/
lemma enhanceCall_isPromptEnhanced (tr : Transport) (s : AppState) :
    (enhanceCall tr s).1.isPromptEnhanced = s.isPromptEnhanced := by
  rw [enhanceCall_fst]; rfl

/-- After the enhance clearing step, the gateway call leaves the enhanced
prompt slot empty. -/
lemma enhanceCall_enhancedPrompt (tr : Transport) (s : AppState) :
    (enhanceCall tr s).1.enhancedPrompt = "" := by
  rw [enhanceCall_fst]; rfl

/-- After the enhance clearing step, the gateway call leaves the editable
prompt slot empty. -/
lemma enhanceCall_customPrompt (tr : Transport) (s : AppState) :
    (enhanceCall tr s).1.customPrompt = "" := by
  rw [enhanceCall_fst]; rfl

/-- The preview gateway call leaves the enhanced flag untouched. -/
lemma previewCall_isPromptEnhanced (tr : Transport) (s : AppState) :
    (previewCall tr s).1.isPromptEnhanced = s.isPromptEnhanced := by
  rw [previewCall_fst]; rfl

/-- The names gateway call leaves the enhanced flag untouched. -/
lemma namesCall_isPromptEnhanced (tr : Transport) (s : AppState) :
    (namesCall tr s).1.isPromptEnhanced = s.isPromptEnhanced := by
  rw [namesCall_fst]; rfl

/-- The monetization gateway call leaves the enhanced flag untouched. -/
lemma monetizationCall_isPromptEnhanced (tr : Transport) (s : AppState) :
    (monetizationCall tr s).1.isPromptEnhanced = s.isPromptEnhanced := by
  rw [monetizationCall_fst]; rfl

/-- The tech stack gateway call leaves the enhanced flag untouched. -/
lemma techStackCall_isPromptEnhanced (tr : Transport) (s : AppState) :
    (techStackCall tr s).1.isPromptEnhanced = s.isPromptEnhanced := by
  rw [techStackCall_fst]; rfl

/-! ## Claim theorems -/

/-- Claim C4: changing the Idea input clears every downstream entity and the
error: afterwards the enhanced and editable prompts and the error message
are empty, the enhanced flag is false, and the preview and all three
auxiliary results are absent. -/
theorem idea_change_resets_all (v : String) (s : AppState) :
    (handleIdeaChange v s).enhancedPrompt = "" ∧
    (handleIdeaChange v s).customPrompt = "" ∧
    (handleIdeaChange v s).error = "" ∧
    (handleIdeaChange v s).isPromptEnhanced = false ∧
    (handleIdeaChange v s).appPreview = none ∧
    (handleIdeaChange v s).appNamesSlogans = none ∧
    (handleIdeaChange v s).monetizationStrategies = none ∧
    (handleIdeaChange v s).techStackSuggestions = none :=
  ⟨rfl, rfl, rfl, rfl, rfl, rfl, rfl, rfl⟩

/-- Claim C7: no handler outcome depends on a previously displayed error:
every operation behaves exactly as if the old error had been cleared before
the attempt, and the gateway call itself clears the error slot at call
start, so an old error is always cleared or replaced, never combined with a
new one. -/
theorem error_banner_replacement (tr : Transport) (p m : String)
    (sch : Option JsVal) (s : AppState) :
    handleEnhancePrompt tr s = handleEnhancePrompt tr (eraseError s) ∧
    handleGenerateAppPreview tr s = handleGenerateAppPreview tr (eraseError s) ∧
    handleGenerateNamesSlogans tr s = handleGenerateNamesSlogans tr (eraseError s) ∧
    handleGenerateMonetizationStrategies tr s
      = handleGenerateMonetizationStrategies tr (eraseError s) ∧
    handleGenerateTechStack tr s = handleGenerateTechStack tr (eraseError s) ∧
    callGeminiApi tr p m sch s = callGeminiApi tr p m sch (eraseError s) :=
  ⟨rfl, rfl, rfl, rfl, rfl, rfl⟩

/-- Claim C2: a trigger whose precondition fails (empty or whitespace-only
Idea for enhance, empty or whitespace-only editable prompt for preview,
absent preview or absent description for the three auxiliary generations)
returns before issuing any network call, sets the operation's guidance
message, and changes nothing else — in particular no loading flag. -/
theorem precondition_short_circuit (tr : Transport) (s : AppState) :
    (jsTrim s.simpleIdea = "" →
      handleEnhancePrompt tr s
        = ({ s with error := "Please enter a simple idea to enhance." }, 0)) ∧
    (jsTrim s.customPrompt = "" →
      handleGenerateAppPreview tr s
        = ({ s with error := "Please enhance a prompt first or provide a custom prompt." }, 0)) ∧
    ((s.appPreview = none ∨ jsGetOpt s.appPreview "description" = none) →
      handleGenerateNamesSlogans tr s
        = ({ s with error := "Please generate an app preview first." }, 0) ∧
      handleGenerateMonetizationStrategies tr s
        = ({ s with error := "Please generate an app preview first." }, 0) ∧
      handleGenerateTechStack tr s
        = ({ s with error := "Please generate an app preview first." }, 0)) := by
  refine ⟨fun h1 => ?_, fun h2 => ?_, fun h3 => ?_⟩
  · simp [handleEnhancePrompt, h1]
  · simp [handleGenerateAppPreview, h2]
  · have hA : auxReady s = false := by
      rcases h3 with h | h
      · have hf : truthyOpt s.appPreview = false := by rw [h]; rfl
        simp [auxReady, hf]
      · have hf : truthyOpt (jsGetOpt s.appPreview "description") = false := by
          rw [h]; rfl
        simp [auxReady, hf]
    refine ⟨?_, ?_, ?_⟩
    · simp [handleGenerateNamesSlogans, hA]
    · simp [handleGenerateMonetizationStrategies, hA]
    · simp [handleGenerateTechStack, hA]

/-- Witness for C2: in the initial state all five preconditions fail and
each handler only sets its guidance message, with zero network calls. -/
theorem precondition_short_circuit_witness :
    handleEnhancePrompt
        { fetch := fun _ _ => .reject "w", parse := fun _ => .error "w" }
        initialState
      = ({ initialState with error := "Please enter a simple idea to enhance." }, 0) ∧
    handleGenerateTechStack
        { fetch := fun _ _ => .reject "w", parse := fun _ => .error "w" }
        initialState
      = ({ initialState with error := "Please generate an app preview first." }, 0) := by
  have h := precondition_short_circuit
    { fetch := fun _ _ => .reject "w", parse := fun _ => .error "w" } initialState
  exact ⟨h.1 rfl, (h.2.2 (Or.inl rfl)).2.2⟩

/-- Claim C5: when the enhancement gateway call returns a non-empty text,
the handler stores that text in both the enhanced and the editable prompt
slots and marks the prompt as enhanced. -/
theorem enhance_success_seeds (tr : Transport) (s : AppState) (t : String)
    (hpre : jsTrim s.simpleIdea ≠ "")
    (hres : (enhanceCall tr s).2 = some (.str t)) (ht : t ≠ "") :
    (handleEnhancePrompt tr s).1.enhancedPrompt = t ∧
    (handleEnhancePrompt tr s).1.customPrompt = t ∧
    (handleEnhancePrompt tr s).1.isPromptEnhanced = true := by
  simp [handleEnhancePrompt, hpre, hres, truthyOpt, truthy, ht,
    jsToStringU, jsToString]

/-- Witness for C5: a transport whose envelope carries the text T makes the
enhancement handler seed both prompt slots with T. -/
theorem enhance_success_seeds_witness :
    (handleEnhancePrompt
        { fetch := fun _ _ =>
            .resolve { ok := true, status := 200, statusText := "OK", body := "B" },
          parse := fun b =>
            if b = "B" then
              .ok (.obj [("candidates",
                .arr [.obj [("content",
                  .obj [("parts", .arr [.obj [("text", .str "T")]])])]])])
            else .error "bad" }
        { initialState with simpleIdea := "a habit tracker" }).1.enhancedPrompt = "T" ∧
    (handleEnhancePrompt
        { fetch := fun _ _ =>
            .resolve { ok := true, status := 200, statusText := "OK", body := "B" },
          parse := fun b =>
            if b = "B" then
              .ok (.obj [("candidates",
                .arr [.obj [("content",
                  .obj [("parts", .arr [.obj [("text", .str "T")]])])]])])
            else .error "bad" }
        { initialState with simpleIdea := "a habit tracker" }).1.isPromptEnhanced = true := by
  have h := enhance_success_seeds
    { fetch := fun _ _ =>
        .resolve { ok := true, status := 200, statusText := "OK", body := "B" },
      parse := fun b =>
        if b = "B" then
          .ok (.obj [("candidates",
            .arr [.obj [("content",
              .obj [("parts", .arr [.obj [("text", .str "T")]])])]])])
        else .error "bad" }
    { initialState with simpleIdea := "a habit tracker" } "T"
    (by decide) rfl (by decide)
  exact ⟨h.1, h.2.2⟩

/-- Claim C6: a preview gateway result without a non-empty description
(including the empty object returned on gateway failure) leaves the preview
slot absent and the error message non-empty. -/
theorem preview_missing_description_fails (tr : Transport) (s : AppState)
    (hpre : jsTrim s.customPrompt ≠ "")
    (hdesc : jsGetOpt (previewCall tr s).2 "description" = none ∨
             jsGetOpt (previewCall tr s).2 "description" = some (.str "")) :
    (handleGenerateAppPreview tr s).1.appPreview = none ∧
    (handleGenerateAppPreview tr s).1.error ≠ "" := by
  have hd : truthyOpt (jsGetOpt (previewCall tr s).2 "description") = false := by
    rcases hdesc with h | h <;> simp [h, truthyOpt, truthy]
  simp [handleGenerateAppPreview, hpre, hd]

/-- Witness for C6: a rejecting transport makes the preview gateway return
the empty object, and the handler reports failure with an absent preview. -/
theorem preview_missing_description_fails_witness :
    (handleGenerateAppPreview
        { fetch := fun _ _ => .reject "network down", parse := fun _ => .error "w" }
        { initialState with customPrompt := "a prompt" }).1.appPreview = none ∧
    (handleGenerateAppPreview
        { fetch := fun _ _ => .reject "network down", parse := fun _ => .error "w" }
        { initialState with customPrompt := "a prompt" }).1.error ≠ "" :=
  preview_missing_description_fails
    { fetch := fun _ _ => .reject "network down", parse := fun _ => .error "w" }
    { initialState with customPrompt := "a prompt" }
    (by decide) (Or.inl rfl)

/-- Claim C9: whenever an operation's gateway call actually runs (its
precondition passed), the operation's loading flag is false once the
handler completes, on every transport behaviour — the clearing sits in the
finally-equivalent final step of each handler. -/
theorem loading_flag_cleared (tr : Transport) (s : AppState) :
    (jsTrim s.simpleIdea ≠ "" →
      (handleEnhancePrompt tr s).1.isLoadingEnhance = false) ∧
    (jsTrim s.customPrompt ≠ "" →
      (handleGenerateAppPreview tr s).1.isLoadingPreview = false) ∧
    (auxReady s = true →
      (handleGenerateNamesSlogans tr s).1.isLoadingNames = false ∧
      (handleGenerateMonetizationStrategies tr s).1.isLoadingMonetization = false ∧
      (handleGenerateTechStack tr s).1.isLoadingTechStack = false) := by
  refine ⟨fun h1 => ?_, fun h2 => ?_, fun h3 => ?_⟩
  · simp [handleEnhancePrompt, h1]
  · simp [handleGenerateAppPreview, h2]
  · refine ⟨?_, ?_, ?_⟩
    · simp [handleGenerateNamesSlogans, h3]
    · simp [handleGenerateMonetizationStrategies, h3]
    · simp [handleGenerateTechStack, h3]

/-- Witness for C9: with all preconditions passing and a rejecting
transport, every loading flag is back to false after each handler. -/
theorem loading_flag_cleared_witness :
    (handleEnhancePrompt
        { fetch := fun _ _ => .reject "w", parse := fun _ => .error "w" }
        { initialState with
            simpleIdea := "i", customPrompt := "c",
            appPreview := some (.obj [("description", .str "d")]) }).1.isLoadingEnhance
      = false ∧
    (handleGenerateAppPreview
        { fetch := fun _ _ => .reject "w", parse := fun _ => .error "w" }
        { initialState with
            simpleIdea := "i", customPrompt := "c",
            appPreview := some (.obj [("description", .str "d")]) }).1.isLoadingPreview
      = false ∧
    (handleGenerateTechStack
        { fetch := fun _ _ => .reject "w", parse := fun _ => .error "w" }
        { initialState with
            simpleIdea := "i", customPrompt := "c",
            appPreview := some (.obj [("description", .str "d")]) }).1.isLoadingTechStack
      = false := by
  have h := loading_flag_cleared
    { fetch := fun _ _ => .reject "w", parse := fun _ => .error "w" }
    { initialState with
        simpleIdea := "i", customPrompt := "c",
        appPreview := some (.obj [("description", .str "d")]) }
  exact ⟨h.1 (by decide), h.2.1 (by decide), (h.2.2 (by decide)).2.2⟩

/-- Claim C10: the enhance handler never resets the enhanced flag — once
true it stays true even when a re-enhancement fails (both prompt slots then
end empty) — and no other handler touches the flag, so only an Idea change
can make it false again. -/
theorem isPromptEnhanced_sticky (tr : Transport) (s : AppState) :
    (s.isPromptEnhanced = true →
      (handleEnhancePrompt tr s).1.isPromptEnhanced = true) ∧
    (jsTrim s.simpleIdea ≠ "" → (enhanceCall tr s).2 = some (.str "") →
      (handleEnhancePrompt tr s).1.enhancedPrompt = "" ∧
      (handleEnhancePrompt tr s).1.customPrompt = "") ∧
    ((handleGenerateAppPreview tr s).1.isPromptEnhanced = s.isPromptEnhanced) ∧
    ((handleGenerateNamesSlogans tr s).1.isPromptEnhanced = s.isPromptEnhanced) ∧
    ((handleGenerateMonetizationStrategies tr s).1.isPromptEnhanced
      = s.isPromptEnhanced) ∧
    ((handleGenerateTechStack tr s).1.isPromptEnhanced = s.isPromptEnhanced) := by
  refine ⟨fun hT => ?_, fun hpre hres => ?_, ?_, ?_, ?_, ?_⟩
  · by_cases hpre : jsTrim s.simpleIdea = ""
    · simp [handleEnhancePrompt, hpre, hT]
    · by_cases ht : truthyOpt (enhanceCall tr s).2
      · simp [handleEnhancePrompt, hpre, ht]
      · simp [handleEnhancePrompt, hpre, ht, enhanceCall_isPromptEnhanced, hT]
  · have ht : truthyOpt (enhanceCall tr s).2 = false := by
      rw [hres]; rfl
    simp [handleEnhancePrompt, hpre, ht, enhanceCall_enhancedPrompt,
      enhanceCall_customPrompt]
  · by_cases hpre : jsTrim s.customPrompt = ""
    · simp [handleGenerateAppPreview, hpre]
    · by_cases ht : truthyOpt (previewCall tr s).2
        && truthyOpt (jsGetOpt (previewCall tr s).2 "description")
      · simp [handleGenerateAppPreview, hpre, ht, previewCall_isPromptEnhanced]
      · simp [handleGenerateAppPreview, hpre, ht, previewCall_isPromptEnhanced]
  · by_cases hpre : auxReady s = false
    · simp [handleGenerateNamesSlogans, hpre]
    · by_cases ht : truthyOpt (namesCall tr s).2
        && truthyOpt (jsGetOpt (namesCall tr s).2 "names")
        && truthyOpt (jsGetOpt (namesCall tr s).2 "taglines")
      · simp [handleGenerateNamesSlogans, hpre, ht, namesCall_isPromptEnhanced]
      · simp [handleGenerateNamesSlogans, hpre, ht, namesCall_isPromptEnhanced]
  · by_cases hpre : auxReady s = false
    · simp [handleGenerateMonetizationStrategies, hpre]
    · by_cases ht : truthyOpt (monetizationCall tr s).2
        && truthyOpt (jsGetOpt (monetizationCall tr s).2 "strategies")
      · simp [handleGenerateMonetizationStrategies, hpre, ht,
          monetizationCall_isPromptEnhanced]
      · simp [handleGenerateMonetizationStrategies, hpre, ht,
          monetizationCall_isPromptEnhanced]
  · by_cases hpre : auxReady s = false
    · simp [handleGenerateTechStack, hpre]
    · by_cases ht : truthyOpt (techStackCall tr s).2
      · simp [handleGenerateTechStack, hpre, ht, techStackCall_isPromptEnhanced]
      · simp [handleGenerateTechStack, hpre, ht, techStackCall_isPromptEnhanced]

/-- Witness for C10: with the flag already true and a rejecting transport,
a failed re-enhancement leaves the flag true and both prompt slots empty. -/
theorem isPromptEnhanced_sticky_witness :
    (handleEnhancePrompt
        { fetch := fun _ _ => .reject "w", parse := fun _ => .error "w" }
        { initialState with
            simpleIdea := "i", enhancedPrompt := "old",
            customPrompt := "old", isPromptEnhanced := true }).1.isPromptEnhanced
      = true ∧
    (handleEnhancePrompt
        { fetch := fun _ _ => .reject "w", parse := fun _ => .error "w" }
        { initialState with
            simpleIdea := "i", enhancedPrompt := "old",
            customPrompt := "old", isPromptEnhanced := true }).1.enhancedPrompt
      = "" ∧
    (handleEnhancePrompt
        { fetch := fun _ _ => .reject "w", parse := fun _ => .error "w" }
        { initialState with
            simpleIdea := "i", enhancedPrompt := "old",
            customPrompt := "old", isPromptEnhanced := true }).1.customPrompt
      = "" := by
  have h := isPromptEnhanced_sticky
    { fetch := fun _ _ => .reject "w", parse := fun _ => .error "w" }
    { initialState with
        simpleIdea := "i", enhancedPrompt := "old",
        customPrompt := "old", isPromptEnhanced := true }
  have h2 := h.2.1 (by decide) rfl
  exact ⟨h.1 rfl, h2.1, h2.2⟩

/-- Counterexample for C3: with a transport whose fetch rejects, the tech
stack gateway call fails and returns the empty object, yet the handler
stores that empty object in the result slot (it is not reset to absent) and
keeps the gateway message; and the names handler replaces a gateway-set
message with its own. -/
theorem techstack_failure_counterexample :
    (handleGenerateTechStack
        { fetch := fun _ _ => .reject "network down", parse := fun _ => .error "w" }
        { initialState with
            appPreview := some (.obj [("description", .str "d")]) }).1.techStackSuggestions
      = some (JsVal.obj []) ∧
    (handleGenerateTechStack
        { fetch := fun _ _ => .reject "network down", parse := fun _ => .error "w" }
        { initialState with
            appPreview := some (.obj [("description", .str "d")]) }).1.error
      = "Failed to connect to AI: network down. Please try again." ∧
    (handleGenerateNamesSlogans
        { fetch := fun _ _ => .reject "network down", parse := fun _ => .error "w" }
        { initialState with
            appPreview := some (.obj [("description", .str "d")]) }).1.error
      = "Failed to generate names/slogans. AI response was incomplete or malformed." :=
  ⟨rfl, rfl, rfl⟩

/-- Claim C3 as amended: for enhance, preview, names and monetization an
empty/placeholder or critically-incomplete gateway result ends in the
failed state — the handler sets its own operation-specific message
(replacing any gateway-set message) and the result slot is reset to absent
(for enhance it stays empty with the gateway message retained) — while the
tech stack handler treats every truthy result, including the empty object
the gateway returns on failure, as success: the slot receives that object
and the gateway message is kept; its failure branch runs only when the
parsed result is a falsy JSON value. -/
theorem failure_result_handling_amended (tr : Transport) (s : AppState) :
    (jsTrim s.simpleIdea ≠ "" → truthyOpt (enhanceCall tr s).2 = false →
      (handleEnhancePrompt tr s).1.enhancedPrompt = "" ∧
      (handleEnhancePrompt tr s).1.error = (enhanceCall tr s).1.error) ∧
    (jsTrim s.customPrompt ≠ "" →
      (truthyOpt (previewCall tr s).2
          && truthyOpt (jsGetOpt (previewCall tr s).2 "description")) = false →
      (handleGenerateAppPreview tr s).1.appPreview = none ∧
      (handleGenerateAppPreview tr s).1.error
        = "Failed to generate a structured app preview. The AI might not have returned complete data or valid JSON.") ∧
    (auxReady s = true →
      ((truthyOpt (namesCall tr s).2
          && truthyOpt (jsGetOpt (namesCall tr s).2 "names")
          && truthyOpt (jsGetOpt (namesCall tr s).2 "taglines")) = false →
        (handleGenerateNamesSlogans tr s).1.appNamesSlogans = none ∧
        (handleGenerateNamesSlogans tr s).1.error
          = "Failed to generate names/slogans. AI response was incomplete or malformed.") ∧
      ((truthyOpt (monetizationCall tr s).2
          && truthyOpt (jsGetOpt (monetizationCall tr s).2 "strategies")) = false →
        (handleGenerateMonetizationStrategies tr s).1.monetizationStrategies = none ∧
        (handleGenerateMonetizationStrategies tr s).1.error
          = "Failed to generate monetization strategies. AI response was incomplete or malformed.") ∧
      (truthyOpt (techStackCall tr s).2 = true →
        (handleGenerateTechStack tr s).1.techStackSuggestions = (techStackCall tr s).2 ∧
        (handleGenerateTechStack tr s).1.error = (techStackCall tr s).1.error) ∧
      (truthyOpt (techStackCall tr s).2 = false →
        (handleGenerateTechStack tr s).1.techStackSuggestions = none ∧
        (handleGenerateTechStack tr s).1.error
          = "Failed to generate tech stack suggestions. AI response was incomplete or malformed.")) := by
  refine ⟨fun hpre ht => ?_, fun hpre ht => ?_,
    fun hpre => ⟨fun ht => ?_, fun ht => ?_, fun ht => ?_, fun ht => ?_⟩⟩
  · constructor
    · simp [handleEnhancePrompt, hpre, ht, enhanceCall_enhancedPrompt]
    · simp [handleEnhancePrompt, hpre, ht]
  · simp [handleGenerateAppPreview, hpre, ht]
  · simp [handleGenerateNamesSlogans, hpre, ht]
  · simp [handleGenerateMonetizationStrategies, hpre, ht]
  · simp [handleGenerateTechStack, hpre, ht]
  · simp [handleGenerateTechStack, hpre, ht]

/-- Witness for the amended C3: on a rejecting transport with a ready
preview, the names failure branch resets its slot while the tech stack
success branch stores the gateway's empty-object failure result. -/
theorem failure_result_handling_amended_witness :
    (handleGenerateNamesSlogans
        { fetch := fun _ _ => .reject "boom", parse := fun _ => .error "w" }
        { initialState with
            appPreview := some (.obj [("description", .str "d")]) }).1.appNamesSlogans
      = none ∧
    (handleGenerateTechStack
        { fetch := fun _ _ => .reject "boom", parse := fun _ => .error "w" }
        { initialState with
            appPreview := some (.obj [("description", .str "d")]) }).1.techStackSuggestions
      = ((techStackCall
            { fetch := fun _ _ => .reject "boom", parse := fun _ => .error "w" }
            { initialState with
                appPreview := some (.obj [("description", .str "d")]) }).2) := by
  have h := failure_result_handling_amended
    { fetch := fun _ _ => .reject "boom", parse := fun _ => .error "w" }
    { initialState with
        appPreview := some (.obj [("description", .str "d")]) }
  have h3 := h.2.2 rfl
  exact ⟨(h3.1 rfl).1, (h3.2.2.1 rfl).1⟩

/-- Counterexample for C8: a 500 response whose error body is not valid
JSON makes `response.json()` throw, so the resulting message carries only
the parser complaint — the numeric status code 500 appears nowhere in it. -/
theorem status_code_omitted_counterexample :
    (callGeminiApi
        { fetch := fun _ _ => .resolve
            { ok := false, status := 500,
              statusText := "Internal Server Error", body := "oops" },
          parse := fun _ => .error "Unexpected token o" }
        "p" "gemini-2.0-flash" none initialState).1.error
      = "Failed to connect to AI: Unexpected token o. Please try again." ∧
    ¬ ("500".toList <:+:
        (callGeminiApi
            { fetch := fun _ _ => .resolve
                { ok := false, status := 500,
                  statusText := "Internal Server Error", body := "oops" },
              parse := fun _ => .error "Unexpected token o" }
            "p" "gemini-2.0-flash" none initialState).1.error.toList) :=
  ⟨rfl, by decide⟩

/-- Claim C8 as amended: on a non-success HTTP status, the error message
embeds the numeric status code together with the server reason (or the
status text) exactly when the error body parses as JSON other than null;
a null body yields the TypeError complaint and an unparseable body yields
the JSON parser complaint, in both cases without the status code. -/
theorem http_error_message_amended (tr : Transport) (p m : String)
    (sch : Option JsVal) (s : AppState) (resp : HttpResponse)
    (hf : tr.fetch (apiUrl m) (mkPayload p sch) = .resolve resp)
    (hok : resp.ok = false) :
    (∀ ed, tr.parse resp.body = .ok ed → ed ≠ .null →
      (callGeminiApi tr p m sch s).1.error
        = failWrap ("API error: " ++ toString resp.status ++ " - "
            ++ optChainMessage (jsGet ed "error") resp.statusText)) ∧
    (tr.parse resp.body = .ok .null →
      (callGeminiApi tr p m sch s).1.error
        = failWrap "Cannot read properties of null (reading error)") ∧
    (∀ pm, tr.parse resp.body = .error pm →
      (callGeminiApi tr p m sch s).1.error = failWrap pm) := by
  refine ⟨fun ed hp hne => ?_, fun hp => ?_, fun pm hp => ?_⟩
  · cases ed with
    | null => exact absurd rfl hne
    | bool b => simp [callGeminiApi, geminiTry, hf, hok, hp, getProp]
    | num n => simp [callGeminiApi, geminiTry, hf, hok, hp, getProp]
    | str t => simp [callGeminiApi, geminiTry, hf, hok, hp, getProp]
    | arr xs => simp [callGeminiApi, geminiTry, hf, hok, hp, getProp]
    | obj fs => simp [callGeminiApi, geminiTry, hf, hok, hp, getProp]
  · simp [callGeminiApi, geminiTry, hf, hok, hp, getProp]
  · simp [callGeminiApi, geminiTry, hf, hok, hp]

/-- Witness for the amended C8: a 403 response with a JSON error body
carrying a message produces a wrapped message embedding both the status
code and the server reason. -/
theorem http_error_message_amended_witness :
    (callGeminiApi
        { fetch := fun _ _ => .resolve
            { ok := false, status := 403, statusText := "Forbidden", body := "E" },
          parse := fun b =>
            if b = "E" then
              .ok (.obj [("error", .obj [("message", .str "Bad key")])])
            else .error "bad" }
        "p" "gemini-2.0-flash" none initialState).1.error
      = "Failed to connect to AI: API error: 403 - Bad key. Please try again." := by
  have h := http_error_message_amended
    { fetch := fun _ _ => .resolve
        { ok := false, status := 403, statusText := "Forbidden", body := "E" },
      parse := fun b =>
        if b = "E" then
          .ok (.obj [("error", .obj [("message", .str "Bad key")])])
        else .error "bad" }
    "p" "gemini-2.0-flash" none initialState
    { ok := false, status := 403, statusText := "Forbidden", body := "E" }
    rfl rfl
  exact (h.1 (.obj [("error", .obj [("message", .str "Bad key")])]) rfl
    (fun hh => JsVal.noConfusion hh)).trans rfl

/-- Counterexample for C1: a response whose envelope passes the whole
candidate/content guard but whose first part has no text field makes the
no-schema call return undefined — not the empty string — while leaving the
error message empty, so this missing-path failure is neither reported nor
normalized. -/
theorem callGeminiApi_missing_text_counterexample :
    (callGeminiApi
        { fetch := fun _ _ => .resolve
            { ok := true, status := 200, statusText := "OK", body := "B" },
          parse := fun b =>
            if b = "B" then
              .ok (.obj [("candidates",
                .arr [.obj [("content", .obj [("parts", .arr [.obj []])])]])])
            else .error "bad" }
        "p" "gemini-2.0-flash" none initialState).2 = none ∧
    (callGeminiApi
        { fetch := fun _ _ => .resolve
            { ok := true, status := 200, statusText := "OK", body := "B" },
          parse := fun b =>
            if b = "B" then
              .ok (.obj [("candidates",
                .arr [.obj [("content", .obj [("parts", .arr [.obj []])])]])])
            else .error "bad" }
        "p" "gemini-2.0-flash" none initialState).1.error = "" :=
  ⟨rfl, rfl⟩

/-- Claim C1 as amended: `callGeminiApi` never throws past its boundary; on
every enumerated failure — rejected fetch, non-success status, empty body,
unparseable envelope, failed candidate/content guard (including a TypeError
on a null step), or unparseable inner JSON — it sets the wrapped error
message and returns the empty string (no schema) or empty object (schema);
on a passed guard it clears the error and returns the parsed inner value
(schema) or the raw text field value (no schema) — the latter being
undefined, with no error set, when the text leaf is missing. -/
theorem callGeminiApi_boundary_amended (tr : Transport) (p m : String)
    (sch : Option JsVal) (s : AppState) :
    (∀ msg, tr.fetch (apiUrl m) (mkPayload p sch) = .reject msg →
      (callGeminiApi tr p m sch s).1.error = failWrap msg ∧
      (callGeminiApi tr p m sch s).2 = dfltReturn sch) ∧
    (∀ resp, tr.fetch (apiUrl m) (mkPayload p sch) = .resolve resp →
      ((resp.ok = false →
        ∃ e, (callGeminiApi tr p m sch s).1.error = failWrap e ∧
          (callGeminiApi tr p m sch s).2 = dfltReturn sch) ∧
      (resp.ok = true → resp.body = "" →
        (callGeminiApi tr p m sch s).1.error
          = failWrap "Empty response from AI. Please try again." ∧
        (callGeminiApi tr p m sch s).2 = dfltReturn sch) ∧
      (∀ pm, resp.ok = true → resp.body ≠ "" → tr.parse resp.body = .error pm →
        (callGeminiApi tr p m sch s).1.error
          = failWrap ("AI returned invalid response format: " ++ resp.body.take 100
              ++ "... (Error: " ++ pm ++ ")") ∧
        (callGeminiApi tr p m sch s).2 = dfltReturn sch) ∧
      (∀ result, resp.ok = true → resp.body ≠ "" → tr.parse resp.body = .ok result →
        ((extractGuard result = .ok .noContent →
          (callGeminiApi tr p m sch s).1.error
            = failWrap "Unexpected API response structure or no content generated." ∧
          (callGeminiApi tr p m sch s).2 = dfltReturn sch) ∧
        (∀ te, extractGuard result = .error te →
          (callGeminiApi tr p m sch s).1.error = failWrap te ∧
          (callGeminiApi tr p m sch s).2 = dfltReturn sch) ∧
        (∀ t σ, extractGuard result = .ok (.part t) → sch = some σ →
          ((∀ v, tr.parse (jsToStringU t) = .ok v →
            (callGeminiApi tr p m sch s).1.error = "" ∧
            (callGeminiApi tr p m sch s).2 = some v) ∧
          (∀ pe, tr.parse (jsToStringU t) = .error pe →
            (callGeminiApi tr p m sch s).1.error
              = failWrap "AI returned invalid JSON within its content. Please try again." ∧
            (callGeminiApi tr p m sch s).2 = dfltReturn sch))) ∧
        (∀ t, extractGuard result = .ok (.part t) → sch = none →
          (callGeminiApi tr p m sch s).1.error = "" ∧
          (callGeminiApi tr p m sch s).2 = t))))) := by
  refine ⟨fun msg hf => ?_,
    fun resp hf => ⟨fun hok => ?_, fun hok hb => ?_, fun pm hok hb hp => ?_,
      fun result hok hb hp =>
        ⟨fun hg => ?_, fun te hg => ?_,
         fun t σ hg hsch => ⟨fun v hip => ?_, fun pe hip => ?_⟩,
         fun t hg hsch => ?_⟩⟩⟩
  · simp [callGeminiApi, geminiTry, hf]
  · cases hp : tr.parse resp.body with
    | error pm =>
        exact ⟨pm, by simp [callGeminiApi, geminiTry, hf, hok, hp]⟩
    | ok ed =>
        cases hgp : getProp (some ed) "error" with
        | error te =>
            exact ⟨te, by simp [callGeminiApi, geminiTry, hf, hok, hp, hgp]⟩
        | ok ef =>
            exact ⟨"API error: " ++ toString resp.status ++ " - "
                ++ optChainMessage ef resp.statusText,
              by simp [callGeminiApi, geminiTry, hf, hok, hp, hgp]⟩
  · simp [callGeminiApi, geminiTry, hf, hok, hb]
  · simp [callGeminiApi, geminiTry, hf, hok, hb, hp]
  · simp [callGeminiApi, geminiTry, hf, hok, hb, hp, hg]
  · simp [callGeminiApi, geminiTry, hf, hok, hb, hp, hg]
  · subst hsch
    simp [callGeminiApi, geminiTry, hf, hok, hb, hp, hg, hip]
  · subst hsch
    simp [callGeminiApi, geminiTry, hf, hok, hb, hp, hg, hip]
  · subst hsch
    simp [callGeminiApi, geminiTry, hf, hok, hb, hp, hg]

/-- Witness for the amended C1: a resolved but empty body yields the
wrapped empty-response message and the empty-string placeholder. -/
theorem callGeminiApi_boundary_amended_witness :
    (callGeminiApi
        { fetch := fun _ _ => .resolve
            { ok := true, status := 200, statusText := "OK", body := "" },
          parse := fun _ => .error "w" }
        "p" "gemini-2.0-flash" none initialState).1.error
      = "Failed to connect to AI: Empty response from AI. Please try again.. Please try again." ∧
    (callGeminiApi
        { fetch := fun _ _ => .resolve
            { ok := true, status := 200, statusText := "OK", body := "" },
          parse := fun _ => .error "w" }
        "p" "gemini-2.0-flash" none initialState).2 = some (.str "") := by
  have h := callGeminiApi_boundary_amended
    { fetch := fun _ _ => .resolve
        { ok := true, status := 200, statusText := "OK", body := "" },
      parse := fun _ => .error "w" }
    "p" "gemini-2.0-flash" none initialState
  have h2 := (h.2 { ok := true, status := 200, statusText := "OK", body := "" } rfl).2.1
    rfl rfl
  exact ⟨h2.1.trans rfl, h2.2.trans rfl⟩
